import Mathlib

/-!
Verification of the longest-flow-path command-line runner (`Source/main.cpp`)
against its natural-language specification.

The runner is embedded shallowly:

* `CellLocation`, `createAlgorithm`, `createMultipleAlgorithm`,
  `loadOutletLocations`, `executeMeasurement` and `mainModel` are translated
  directly from `Source/main.cpp`.
* The outlet file is modelled as the stream of whitespace-separated tokens
  that `operator>>` on `int` consumes: each token either parses as an
  integer (`some n`) or is malformed (`none`).  Blank lines and trailing
  whitespace produce no tokens, which is exactly how `fstream >> int`
  treats them.
* The algorithm implementations (`RecursiveSeqLfp` … `DoubleDropOmpLfp`)
  and the GDAL loader live in headers that are not part of this source
  tree; where a claim depends on them they are modelled from the spec
  (definitions marked `Modelled from the spec:`).
* Undefined behaviour of the C++ program is made explicit: calling
  `execute` through a null algorithm pointer and indexing an empty
  `std::vector` become distinguished outcomes of the model, and reading
  `argv[argc]` (the null terminator of the argument vector) is modelled
  as `none`.
-/

/-- `CellLocation` from the data model: one-based (row, col), C++ `int`
fields embedded as `Int`. -/
structure CellLocation where
  row : Int
  col : Int
deriving DecidableEq, Repr

/-- The seven single-outlet algorithm objects that `createAlgorithm` can
construct; `recursiveTask` stores the constructor argument
(`algorithmParameter`, the task-creation cutoff). -/
inductive Alg where
  | recursiveSeq
  | recursiveTask (taskLimit : Int)
  | topDownMaxSeq
  | topDownSingleSeq
  | topDownSingleOmp
  | doubleDropSeq
  | doubleDropOmp
deriving DecidableEq, Repr

/-- The three multi-outlet algorithm objects that `createMultipleAlgorithm`
can construct. -/
inductive MultiAlg where
  | topDownMaxSeq
  | topDownSingleSeq
  | topDownSingleOmp
deriving DecidableEq, Repr

/-- `createMultipleAlgorithm` (main.cpp:33-42): `nullptr` is `none`. -/
def createMultipleAlgorithm (algorithmIndex _algorithmParameter : Int) : Option MultiAlg :=
  if algorithmIndex = 3 then some .topDownMaxSeq
  else if algorithmIndex = 4 then some .topDownSingleSeq
  else if algorithmIndex = 5 then some .topDownSingleOmp
  else none

/-- `createAlgorithm` (main.cpp:45-58): `nullptr` is `none`; only the
`case 2` arm uses `algorithmParameter`. -/
def createAlgorithm (algorithmIndex algorithmParameter : Int) : Option Alg :=
  if algorithmIndex = 1 then some .recursiveSeq
  else if algorithmIndex = 2 then some (.recursiveTask algorithmParameter)
  else if algorithmIndex = 3 then some .topDownMaxSeq
  else if algorithmIndex = 4 then some .topDownSingleSeq
  else if algorithmIndex = 5 then some .topDownSingleOmp
  else if algorithmIndex = 6 then some .doubleDropSeq
  else if algorithmIndex = 7 then some .doubleDropOmp
  else none

/-- `loadOutletLocations` (main.cpp:79-93).  The file is the token stream
read by `file >> row >> col >> label`; the loop pushes `{row, col}` while
three further integers can be extracted and stops at the first failed
extraction (malformed token or end of file), silently discarding any
partial triple. -/
def loadOutletLocations : List (Option Int) → List CellLocation
  | some row :: some col :: some _ :: rest => ⟨row, col⟩ :: loadOutletLocations rest
  | _ => []

/-- Token stream of a well-formed outlet file: each `(row, col, label)`
triple contributes three integer tokens. -/
def tokensOfTriples : List (Int × Int × Int) → List (Option Int)
  | [] => []
  | (row, col, lab) :: rest => some row :: some col :: some lab :: tokensOfTriples rest

/-- One CSV body line `row,col` (main.cpp:142 and main.cpp:161). -/
def csvLine (s : CellLocation) : String :=
  toString s.row ++ "," ++ toString s.col

/-- The result CSV written by `executeMeasurement`: header `row,column`
then one line per source location (main.cpp:138-144 and 158-162). -/
def csvOutput (sources : List CellLocation) : List String :=
  "row,column" :: sources.map csvLine

/-- The branch condition of main.cpp:126:
`algorithmParameter && algorithmIndex >= 3 && algorithmIndex <= 5`
(C++ truthiness of an `int` is `≠ 0`). -/
def multiMode (algorithmIndex algorithmParameter : Int) : Bool :=
  decide (algorithmParameter ≠ 0) && decide (3 ≤ algorithmIndex) && decide (algorithmIndex ≤ 5)

/-- The spec's error kinds (§7). -/
inductive LfpError where
  | GridLoad
  | OutletParse
  | OutletOutOfBounds
  | GridMalformed
  | AlgorithmUnknown
  | ArgumentsMissing
deriving DecidableEq, Repr

/-- `FlowDirectionMatrix`: dense row-major matrix of D8 direction codes
with `height`/`width` as C++ `int`s (spec §3; produced by the external
loader). -/
structure FlowDirectionMatrix where
  height : Int
  width : Int
  codes : List Nat
deriving DecidableEq, Repr

/-- Modelled from the spec: the D8 direction codec (§3, §4.1), which lives
in the headers absent from this tree.  `offset code` is the downstream
(dRow, dCol) for the eight valid codes and `none` for any other value
(terminal cell). -/
def offset : Nat → Option (Int × Int)
  | 1 => some (0, 1)
  | 2 => some (1, 1)
  | 4 => some (1, 0)
  | 8 => some (1, -1)
  | 16 => some (0, -1)
  | 32 => some (-1, -1)
  | 64 => some (-1, 0)
  | 128 => some (-1, 1)
  | _ => none

/-- Modelled from the spec: `inBounds` (§4.2), one-based bounds test. -/
def inBounds (g : FlowDirectionMatrix) (r c : Int) : Bool :=
  decide (1 ≤ r) && decide (r ≤ g.height) && decide (1 ≤ c) && decide (c ≤ g.width)

/-- Modelled from the spec: the direction code stored at one-based (r, c)
in the row-major buffer (§3). -/
def codeAt (g : FlowDirectionMatrix) (r c : Int) : Nat :=
  (g.codes[((r - 1) * g.width + (c - 1)).toNat]?).getD 0

/-- Modelled from the spec: `downstream` (§4.2) — apply the codec, `none`
when terminal or when the target cell is out of bounds. -/
def downstream (g : FlowDirectionMatrix) (r c : Int) : Option (Int × Int) :=
  match offset (codeAt g r c) with
  | none => none
  | some (dr, dc) =>
      if inBounds g (r + dr) (c + dc) then some (r + dr, c + dc) else none

/-- The fixed upstream-enumeration order NW, N, NE, W, E, SW, S, SE
(spec §4.2), as (dRow, dCol) offsets. -/
def neighbourOffsets : List (Int × Int) :=
  [(-1, -1), (-1, 0), (-1, 1), (0, -1), (0, 1), (1, -1), (1, 0), (1, 1)]

/-- Modelled from the spec: `upstreamNeighbours` (§4.2) — the in-bounds
neighbours whose downstream cell is (r, c), in the fixed enumeration
order. -/
def upstreamNeighbours (g : FlowDirectionMatrix) (r c : Int) : List (Int × Int) :=
  (neighbourOffsets.map fun d => (r + d.1, c + d.2)).filter fun p =>
    inBounds g p.1 p.2 && decide (downstream g p.1 p.2 = some (r, c))

/-- Modelled from the spec: the reference longest-flow-path traversal
(§4.3 RecursiveSeq) — from a cell, the pair (depth of the deepest upstream
leaf, that leaf), ties broken in favour of the first child in the
upstream-enumeration order.  Structural fuel stands in for the C++ call
stack; one cell per hop suffices on an acyclic grid. -/
def lfpRec (g : FlowDirectionMatrix) : Nat → Int → Int → Nat × CellLocation
  | 0, r, c => (0, ⟨r, c⟩)
  | fuel + 1, r, c =>
      ((upstreamNeighbours g r c).map fun p =>
          ((lfpRec g fuel p.1 p.2).1 + 1, (lfpRec g fuel p.1 p.2).2)).foldl
        (fun best cand => if best.1 < cand.1 then cand else best) (0, ⟨r, c⟩)

/-- Modelled from the spec: single-outlet `execute` of the algorithm
interface, whose implementations are in headers absent from this tree.
Per §7/§9(a)/S5 an outlet that is not in-bounds is an explicit
`OutletOutOfBounds` error; otherwise the source of the longest flow path
is returned (§8.1: all seven algorithms compute the same function, so the
reference traversal stands for each). -/
def executeSingle (g : FlowDirectionMatrix) (outlet : CellLocation) : Except LfpError CellLocation :=
  if inBounds g outlet.row outlet.col then
    .ok (lfpRec g (g.height * g.width).toNat outlet.row outlet.col).2
  else
    .error .OutletOutOfBounds

/-- Modelled from the spec: `executeMultiple` (§4.9) — one source per
outlet, in input order; errors are fatal for the invocation. -/
def executeMultiple (g : FlowDirectionMatrix) : List CellLocation → Except LfpError (List CellLocation)
  | [] => .ok []
  | o :: rest =>
      match executeSingle g o with
      | .error e => .error e
      | .ok s =>
          match executeMultiple g rest with
          | .error e => .error e
          | .ok ss => .ok (s :: ss)

/-- How one run of `executeMeasurement` ends.  `wroteCsv` carries the
lines of the output file; `nullAlgorithmCall` marks the undefined
behaviour of invoking `execute`/`executeMultiple` through a null pointer
(main.cpp:151 after `createAlgorithm` returned `nullptr`);
`outletAccessOutOfBounds` marks the undefined behaviour of
`outletLocations[0]` on an empty vector (main.cpp:146); `failed` carries
an error surfaced by the (spec-modelled) algorithm. -/
inductive RunOutcome where
  | wroteCsv (lines : List String)
  | nullAlgorithmCall
  | outletAccessOutOfBounds
  | failed (e : LfpError)
deriving DecidableEq, Repr

/-- Observable behaviour of one `executeMeasurement` call: which branch of
main.cpp:126 ran, which outlets were handed to the algorithm, and how the
run ended. -/
structure RunResult where
  usedMultipleBranch : Bool
  outletsProcessed : List CellLocation
  outcome : RunOutcome
deriving DecidableEq, Repr

/-- `executeMeasurement` (main.cpp:115-164).  The direction matrix is the
loader's result (the loader is external); the outlet file is its token
stream.  The multiple branch passes the whole outlet list to
`executeMultiple` and writes one CSV line per returned source; the single
branch reads `outletLocations[0]` (before constructing the algorithm),
runs `execute` on it and writes exactly one body line. -/
def executeMeasurement (g : FlowDirectionMatrix) (outletTokens : List (Option Int))
    (algorithmIndex algorithmParameter : Int) : RunResult :=
  let outletLocations := loadOutletLocations outletTokens
  if multiMode algorithmIndex algorithmParameter then
    match createMultipleAlgorithm algorithmIndex algorithmParameter with
    | none => ⟨true, outletLocations, .nullAlgorithmCall⟩
    | some _ =>
        match executeMultiple g outletLocations with
        | .error e => ⟨true, outletLocations, .failed e⟩
        | .ok sources => ⟨true, outletLocations, .wroteCsv (csvOutput sources)⟩
  else
    match outletLocations[0]? with
    | none => ⟨false, [], .outletAccessOutOfBounds⟩
    | some outlet =>
        match createAlgorithm algorithmIndex algorithmParameter with
        | none => ⟨false, [outlet], .nullAlgorithmCall⟩
        | some _ =>
            match executeSingle g outlet with
            | .error e => ⟨false, [outlet], .failed e⟩
            | .ok s => ⟨false, [outlet], .wroteCsv (csvOutput [s])⟩

/-- C `atoi`, restricted to the fully-numeric strings the claims use. -/
def atoi (s : String) : Int :=
  (s.toInt?).getD 0

/-- Observable behaviour of `main` (main.cpp:167-184). -/
structure MainResult where
  printedUsage : Bool
  executed : Bool
  directionFilenameArg : Option String
  outletFilenameArg : Option String
  algorithmIndexUsed : Int
  outputFilenameArg : Option String
  algorithmParameterUsed : Int
  exitCode : Int
deriving DecidableEq, Repr

/-- `main` (main.cpp:167-184).  `argv` is the list of the `argc` argument
strings; C guarantees `argv[argc]` is the null pointer, so reading index
`i` of the argument vector is `argv[i]?` with `none` standing for null.
`argc < 4` prints usage; otherwise `executeMeasurement` is called with
`argv[1..4]` and, when `argc > 5`, `atoi(argv[5])`, else parameter 0.
`main` has no return statement, so the exit code is 0 on every path that
returns. -/
def mainModel (argv : List String) : MainResult :=
  if argv.length < 4 then
    { printedUsage := true
      executed := false
      directionFilenameArg := none
      outletFilenameArg := none
      algorithmIndexUsed := 0
      outputFilenameArg := none
      algorithmParameterUsed := 0
      exitCode := 0 }
  else
    { printedUsage := false
      executed := true
      directionFilenameArg := argv[1]?
      outletFilenameArg := argv[2]?
      algorithmIndexUsed := atoi ((argv[3]?).getD "")
      outputFilenameArg := argv[4]?
      algorithmParameterUsed := if argv.length > 5 then atoi ((argv[5]?).getD "") else 0
      exitCode := 0 }

/-- The 1×5 westward chain grid: cell (1,1) is terminal, every other cell
of the row flows west, so the longest path into outlet (1,1) starts at
(1,5). -/
def gChain : FlowDirectionMatrix := ⟨1, 5, [0, 16, 16, 16, 16]⟩

/-- The all-terminal 3×3 grid of scenarios S4/S5. -/
def gFlat : FlowDirectionMatrix := ⟨3, 3, [0, 0, 0, 0, 0, 0, 0, 0, 0]⟩

/-- Token stream of an outlet file holding the two outlets (1,1) and
(1,5), each with label 0. -/
def toksTwoOutlets : List (Option Int) :=
  [some 1, some 1, some 0, some 1, some 5, some 0]

example : loadOutletLocations [some 1, some 1, some 10, none, some 2, some 3] = [⟨1, 1⟩] := rfl

example : (lfpRec gChain 5 1 1).2 = ⟨1, 5⟩ := by decide

example : executeMeasurement gChain [some 1, some 1, some 10, none, some 2, some 3] 1 0 =
    ⟨false, [⟨1, 1⟩], .wroteCsv ["row,column", "1,5"]⟩ := by decide

/-- Helper: an empty token stream yields no outlets. -/
theorem loadOutletLocations_nil : loadOutletLocations [] = [] := rfl

/-- Helper: a malformed leading token stops parsing at once. -/
theorem loadOutletLocations_none_cons (post : List (Option Int)) :
    loadOutletLocations (none :: post) = [] := rfl

/-- Helper: parsing a well-formed run of triples consumes it entirely and
continues on whatever tokens follow. -/
theorem loadOutletLocations_append (ts : List (Int × Int × Int)) (rest : List (Option Int)) :
    loadOutletLocations (tokensOfTriples ts ++ rest) =
      (ts.map fun t => CellLocation.mk t.1 t.2.1) ++ loadOutletLocations rest := by
  induction ts with
  | nil => rfl
  | cons t ts ih =>
      obtain ⟨r, c, l⟩ := t
      simp [tokensOfTriples, loadOutletLocations, ih]

/-- C5: on a well-formed outlet file of whitespace-separated integer
triples `row col label`, `loadOutletLocations` returns exactly the
(row, col) pairs of the triples in file order; every label is read and
discarded (the result does not depend on `t.2.2`), and parsing stops at
end of file.  Blank lines and trailing whitespace contribute no tokens to
the extraction stream, so they cannot affect the result. -/
theorem c5_load_outlets (ts : List (Int × Int × Int)) :
    loadOutletLocations (tokensOfTriples ts) = ts.map fun t => CellLocation.mk t.1 t.2.1 := by
  simpa [loadOutletLocations_nil] using loadOutletLocations_append ts []

/-- C4 counterexample: a malformed fourth token does NOT raise any error —
`loadOutletLocations` silently returns the triples before it, the run
continues, and a result file for that partial outlet list is written.
This refutes "raises a fatal OutletParse error; the invocation fails and
no partial result is emitted". -/
theorem c4_counterexample :
    loadOutletLocations [some 1, some 1, some 10, none, some 2, some 3] = [⟨1, 1⟩] ∧
    executeMeasurement gChain [some 1, some 1, some 10, none, some 2, some 3] 1 0 =
      ⟨false, [⟨1, 1⟩], .wroteCsv ["row,column", "1,5"]⟩ :=
  ⟨rfl, by decide⟩

/-- C4 amended: a malformed token terminates parsing silently; the outlets
from the well-formed lines before it are returned (no error value exists
in `loadOutletLocations` at all) and everything after the malformed token
is ignored. -/
theorem c4_malformed_stops_silently (ts : List (Int × Int × Int)) (post : List (Option Int)) :
    loadOutletLocations (tokensOfTriples ts ++ none :: post) =
      ts.map fun t => CellLocation.mk t.1 t.2.1 := by
  simpa [loadOutletLocations_none_cons] using loadOutletLocations_append ts (none :: post)

/-- C2 counterexample: with one CLI argument (fewer than four), the usage
branch is taken yet the exit code is 0 — not non-zero as claimed. -/
theorem c2_counterexample :
    (mainModel ["lfp"]).printedUsage = true ∧ (mainModel ["lfp"]).exitCode = 0 := by
  decide

/-- C2 amended: `main` exits 0 on every path — after printing usage just
as after a completed run; the exit code does not distinguish "no run"
from "run completed". -/
theorem c2_exit_code (argv : List String) :
    (mainModel argv).exitCode = 0 ∧
    (argv.length < 4 → (mainModel argv).printedUsage = true ∧ (mainModel argv).executed = false) := by
  unfold mainModel
  by_cases h : argv.length < 4 <;> simp [h]

/-- Witness for `c2_exit_code` at `argv = ["lfp"]`. -/
theorem c2_exit_code_witness :
    (mainModel ["lfp"]).printedUsage = true ∧ (mainModel ["lfp"]).executed = false :=
  (c2_exit_code ["lfp"]).2 (by decide)

/-- C3: with exactly three positional arguments (argc = 4) the guard
`argc < 4` does NOT print usage; the program proceeds to execute and the
output filename it reads is `argv[4]` — the null terminator of the
argument vector (`none`).  The code's own usage text declares four
required arguments, so the guard is an off-by-one slip. -/
theorem c3_three_arguments_runs :
    (mainModel ["lfp", "dir.tif", "outlets.txt", "1"]).printedUsage = false ∧
    (mainModel ["lfp", "dir.tif", "outlets.txt", "1"]).executed = true ∧
    (mainModel ["lfp", "dir.tif", "outlets.txt", "1"]).outputFilenameArg = none := by
  decide

/-- C9: with argc = 4 the usage branch is not taken and the output
filename read is `argv[4]`, the null entry terminating the argument
vector; with at least four positional arguments (argc ≥ 5) the same read
yields an actual string, so the access is safe exactly under that
precondition. -/
theorem c9_argv4_is_null (argv : List String) :
    (argv.length = 4 →
       (mainModel argv).printedUsage = false ∧ (mainModel argv).executed = true ∧
       (mainModel argv).outputFilenameArg = none) ∧
    (5 ≤ argv.length → ∃ s, (mainModel argv).outputFilenameArg = some s) := by
  constructor
  · intro h
    unfold mainModel
    rw [if_neg (by omega)]
    exact ⟨rfl, rfl, by simp [List.getElem?_eq_none, h]⟩
  · intro h
    have h4 : 4 < argv.length := by omega
    unfold mainModel
    rw [if_neg (by omega)]
    exact ⟨argv[4], by simp [List.getElem?_eq_getElem h4]⟩

/-- Witness for `c9_argv4_is_null`: at argc = 4 the filename read is the
null entry; with a fifth argument it is that argument. -/
theorem c9_argv4_is_null_witness :
    ((mainModel ["lfp", "a", "b", "3"]).printedUsage = false ∧
     (mainModel ["lfp", "a", "b", "3"]).executed = true ∧
     (mainModel ["lfp", "a", "b", "3"]).outputFilenameArg = none) ∧
    (∃ s, (mainModel ["lfp", "a", "b", "3", "out.csv"]).outputFilenameArg = some s) :=
  ⟨(c9_argv4_is_null ["lfp", "a", "b", "3"]).1 rfl,
   (c9_argv4_is_null ["lfp", "a", "b", "3", "out.csv"]).2 (by decide)⟩

/-- Helper: in the multiple branch (condition true, algorithm object
constructed) the whole outlet list is handed to `executeMultiple`. -/
theorem executeMeasurement_multi_fields (g : FlowDirectionMatrix) (toks : List (Option Int))
    (i p : Int) (hm : multiMode i p = true) (a : MultiAlg)
    (ha : createMultipleAlgorithm i p = some a) :
    (executeMeasurement g toks i p).usedMultipleBranch = true ∧
    (executeMeasurement g toks i p).outletsProcessed = loadOutletLocations toks := by
  simp only [executeMeasurement, hm, ha, if_true]
  cases executeMultiple g (loadOutletLocations toks) with
  | error e => simp
  | ok ss => simp

/-- Helper: in the single branch only `outletLocations[0]` is processed. -/
theorem executeMeasurement_single_fields (g : FlowDirectionMatrix) (toks : List (Option Int))
    (i p : Int) (hm : multiMode i p = false) :
    (executeMeasurement g toks i p).usedMultipleBranch = false ∧
    (executeMeasurement g toks i p).outletsProcessed = (loadOutletLocations toks).take 1 := by
  simp only [executeMeasurement, hm, Bool.false_eq_true, if_false]
  cases hl : loadOutletLocations toks with
  | nil => simp
  | cons o rest =>
      simp only [List.getElem?_cons_zero, List.take_succ_cons, List.take_zero]
      cases createAlgorithm i p with
      | none => simp
      | some a =>
          cases executeSingle g o with
          | error e => simp
          | ok s => simp

/-- C1: dispatch on the fifth CLI parameter.  A truthy parameter together
with algorithm index 3–5 constructs the multi-outlet algorithm object and
passes the full outlet list to `executeMultiple`; a falsy (or defaulted)
parameter, or index 1, 2, 6 or 7, takes the single-outlet branch where
only the first outlet of the list is processed.  For algorithm 2 the
parameter is forwarded to the `RecursiveTaskLfp` constructor as the
task-creation cutoff; the constructors for indices 1, 6 and 7 ignore it. -/
theorem c1_dispatch (g : FlowDirectionMatrix) (toks : List (Option Int)) (i p : Int) :
    (p ≠ 0 → 3 ≤ i → i ≤ 5 →
        (createMultipleAlgorithm i p).isSome = true ∧
        (executeMeasurement g toks i p).usedMultipleBranch = true ∧
        (executeMeasurement g toks i p).outletsProcessed = loadOutletLocations toks) ∧
    ((p = 0 ∨ i = 1 ∨ i = 2 ∨ i = 6 ∨ i = 7) →
        (executeMeasurement g toks i p).usedMultipleBranch = false ∧
        (executeMeasurement g toks i p).outletsProcessed = (loadOutletLocations toks).take 1) ∧
    createAlgorithm 2 p = some (.recursiveTask p) ∧
    createAlgorithm 1 p = some .recursiveSeq ∧
    createAlgorithm 6 p = some .doubleDropSeq ∧
    createAlgorithm 7 p = some .doubleDropOmp := by
  refine ⟨?_, ?_, rfl, rfl, rfl, rfl⟩
  · intro hp h3 h5
    have hm : multiMode i p = true := by simp [multiMode, hp, h3, h5]
    have hc : ∃ a, createMultipleAlgorithm i p = some a := by
      unfold createMultipleAlgorithm
      interval_cases i
      · exact ⟨_, rfl⟩
      · exact ⟨_, rfl⟩
      · exact ⟨_, rfl⟩
    obtain ⟨a, ha⟩ := hc
    exact ⟨by rw [ha]; rfl,
      (executeMeasurement_multi_fields g toks i p hm a ha).1,
      (executeMeasurement_multi_fields g toks i p hm a ha).2⟩
  · intro hcase
    have hm : multiMode i p = false := by
      rcases hcase with h | h | h | h | h <;> subst h <;> simp [multiMode]
    exact executeMeasurement_single_fields g toks i p hm

/-- Witness for `c1_dispatch`: algorithm 3 with parameter 1 takes the
multiple branch on the full two-outlet list; algorithm 1 with parameter 0
takes the single branch and processes only the first outlet. -/
theorem c1_dispatch_witness :
    ((createMultipleAlgorithm 3 1).isSome = true ∧
     (executeMeasurement gChain toksTwoOutlets 3 1).usedMultipleBranch = true ∧
     (executeMeasurement gChain toksTwoOutlets 3 1).outletsProcessed =
       loadOutletLocations toksTwoOutlets) ∧
    ((executeMeasurement gChain toksTwoOutlets 1 0).usedMultipleBranch = false ∧
     (executeMeasurement gChain toksTwoOutlets 1 0).outletsProcessed =
       (loadOutletLocations toksTwoOutlets).take 1) :=
  ⟨(c1_dispatch gChain toksTwoOutlets 3 1).1 (by decide) (by decide) (by decide),
   (c1_dispatch gChain toksTwoOutlets 1 0).2.1 (Or.inl rfl)⟩

/-- C10: the single-outlet branch reads `outletLocations[0]` with no
emptiness check — when the outlet file yields no locations the access is
out of bounds (a distinguished stuck outcome of the model); it is exactly
the non-emptiness of the loaded list that makes the access safe. -/
theorem c10_first_outlet_access (g : FlowDirectionMatrix) (toks : List (Option Int)) (i p : Int) :
    (multiMode i p = false → loadOutletLocations toks = [] →
        (executeMeasurement g toks i p).outcome = .outletAccessOutOfBounds) ∧
    (loadOutletLocations toks ≠ [] →
        (executeMeasurement g toks i p).outcome ≠ .outletAccessOutOfBounds) := by
  constructor
  · intro hm hempty
    simp [executeMeasurement, hm, hempty]
  · intro hne
    cases hl : loadOutletLocations toks with
    | nil => exact absurd hl hne
    | cons o rest =>
        simp only [executeMeasurement, hl]
        cases hm : multiMode i p
        · simp only [Bool.false_eq_true, if_false, List.getElem?_cons_zero]
          cases createAlgorithm i p with
          | none => simp
          | some a =>
              cases executeSingle g o with
              | error e => simp
              | ok s => simp
        · simp only [if_true]
          cases createMultipleAlgorithm i p with
          | none => simp
          | some a =>
              cases executeMultiple g (o :: rest) with
              | error e => simp
              | ok ss => simp

/-- Witness for `c10_first_outlet_access`: an empty outlet file under the
single-outlet branch gets stuck on the `outletLocations[0]` access. -/
theorem c10_first_outlet_access_witness :
    (executeMeasurement gChain [] 1 0).outcome = .outletAccessOutOfBounds :=
  (c10_first_outlet_access gChain [] 1 0).1 rfl rfl

/-- C7 counterexample: with algorithm index 8 and a non-empty outlet file,
the run does not fail with an `AlgorithmUnknown` error — `createAlgorithm`
returns a null pointer and `executeMeasurement` calls `execute` through
it (the model's `nullAlgorithmCall` outcome, undefined behaviour in C++);
no error is reported and no non-zero exit is produced. -/
theorem c7_counterexample :
    (executeMeasurement gChain [some 1, some 1, some 10] 8 0).outcome = .nullAlgorithmCall ∧
    (executeMeasurement gChain [some 1, some 1, some 10] 8 0).outcome ≠
      .failed .AlgorithmUnknown := by
  decide

/-- C7 amended: for an algorithm index outside 1..7 the dispatch returns a
null algorithm pointer, the condition of main.cpp:126 sends the run down
the single-outlet branch, and (once the first outlet has been read) the
run ends in the undefined-behaviour call through the null pointer.  No
`AlgorithmUnknown` error exists in the code and no result CSV is
produced. -/
theorem c7_unknown_algorithm (g : FlowDirectionMatrix) (toks : List (Option Int)) (i p : Int)
    (hi : i < 1 ∨ 7 < i) (hne : loadOutletLocations toks ≠ []) :
    createAlgorithm i p = none ∧
    multiMode i p = false ∧
    (executeMeasurement g toks i p).outcome = .nullAlgorithmCall := by
  have hca : createAlgorithm i p = none := by
    unfold createAlgorithm
    rcases hi with h | h <;>
      rw [if_neg (by omega), if_neg (by omega), if_neg (by omega), if_neg (by omega),
        if_neg (by omega), if_neg (by omega), if_neg (by omega)]
  have hm : multiMode i p = false := by
    rcases hi with h | h
    · have h3 : ¬ (3 ≤ i) := by omega
      simp [multiMode, h3]
    · have h5 : ¬ (i ≤ 5) := by omega
      simp [multiMode, h5]
  refine ⟨hca, hm, ?_⟩
  cases hl : loadOutletLocations toks with
  | nil => exact absurd hl hne
  | cons o rest => simp [executeMeasurement, hl, hm, hca]

/-- Witness for `c7_unknown_algorithm` at index 8. -/
theorem c7_unknown_algorithm_witness :
    createAlgorithm 8 0 = none ∧
    multiMode 8 0 = false ∧
    (executeMeasurement gChain toksTwoOutlets 8 0).outcome = .nullAlgorithmCall :=
  c7_unknown_algorithm gChain toksTwoOutlets 8 0 (Or.inr (by decide)) (by decide)

/-- C8: an outlet that is not in-bounds makes the (spec-modelled)
algorithm fail with an explicit `OutletOutOfBounds` error instead of
running the traversal, and the single-outlet run surfaces exactly that
error. -/
theorem c8_outlet_out_of_bounds (g : FlowDirectionMatrix) (toks : List (Option Int)) (i p : Int)
    (o : CellLocation) (hm : multiMode i p = false)
    (ho : (loadOutletLocations toks)[0]? = some o)
    (hb : inBounds g o.row o.col = false)
    (hi1 : 1 ≤ i) (hi7 : i ≤ 7) :
    executeSingle g o = .error .OutletOutOfBounds ∧
    (executeMeasurement g toks i p).outcome = .failed .OutletOutOfBounds := by
  have hs : executeSingle g o = .error .OutletOutOfBounds := by
    unfold executeSingle
    rw [hb]
    simp
  have hca : ∃ a, createAlgorithm i p = some a := by
    unfold createAlgorithm
    interval_cases i
    · exact ⟨_, rfl⟩
    · exact ⟨_, rfl⟩
    · exact ⟨_, rfl⟩
    · exact ⟨_, rfl⟩
    · exact ⟨_, rfl⟩
    · exact ⟨_, rfl⟩
    · exact ⟨_, rfl⟩
  obtain ⟨a, ha⟩ := hca
  refine ⟨hs, ?_⟩
  simp [executeMeasurement, hm, ho, ha, hs]

/-- Witness for `c8_outlet_out_of_bounds`: scenario S5 — outlet (4,4) on
the all-terminal 3×3 grid. -/
theorem c8_outlet_out_of_bounds_witness :
    executeSingle gFlat ⟨4, 4⟩ = .error .OutletOutOfBounds ∧
    (executeMeasurement gFlat [some 4, some 4, some 0] 1 0).outcome =
      .failed .OutletOutOfBounds :=
  c8_outlet_out_of_bounds gFlat [some 4, some 4, some 0] 1 0 ⟨4, 4⟩ rfl rfl rfl
    (by decide) (by decide)

/-- Helper: a successful `executeMultiple` returns one source per outlet. -/
theorem executeMultiple_ok_length (g : FlowDirectionMatrix) (outlets : List CellLocation)
    (sources : List CellLocation) (h : executeMultiple g outlets = .ok sources) :
    sources.length = outlets.length := by
  induction outlets generalizing sources with
  | nil =>
      unfold executeMultiple at h
      injection h with h
      subst h
      rfl
  | cons o rest ih =>
      unfold executeMultiple at h
      cases hs : executeSingle g o with
      | error e => rw [hs] at h; exact absurd h (by simp)
      | ok s =>
          rw [hs] at h
          cases hr : executeMultiple g rest with
          | error e => rw [hr] at h; exact absurd h (by simp)
          | ok ss =>
              rw [hr] at h
              injection h with h
              subst h
              simp [ih ss hr]

/-- C6: every written result CSV starts with the header `row,column`; in
multi-outlet mode the body is one `row,col` line per returned source —
and `executeMultiple` returns one source per input outlet, in input
order — while in single-outlet mode the body is exactly one line carrying
the source computed for the first outlet of the list. -/
theorem c6_csv_shape (g : FlowDirectionMatrix) (toks : List (Option Int)) (i p : Int)
    (lines : List String)
    (h : (executeMeasurement g toks i p).outcome = .wroteCsv lines) :
    lines.head? = some "row,column" ∧
    (multiMode i p = true →
        ∃ sources, executeMultiple g (loadOutletLocations toks) = .ok sources ∧
          sources.length = (loadOutletLocations toks).length ∧
          lines = csvOutput sources) ∧
    (multiMode i p = false →
        ∃ o s, (loadOutletLocations toks)[0]? = some o ∧ executeSingle g o = .ok s ∧
          lines = ["row,column", csvLine s]) := by
  cases hm : multiMode i p with
  | true =>
      simp only [executeMeasurement, hm, if_true] at h
      cases hc : createMultipleAlgorithm i p with
      | none => rw [hc] at h; exact absurd h (by simp)
      | some a =>
          rw [hc] at h
          cases he : executeMultiple g (loadOutletLocations toks) with
          | error e => rw [he] at h; exact absurd h (by simp)
          | ok ss =>
              rw [he] at h
              simp only [RunOutcome.wroteCsv.injEq] at h
              subst h
              refine ⟨rfl, fun _ => ⟨ss, rfl, executeMultiple_ok_length g _ ss he, rfl⟩,
                fun hf => absurd hf (by simp)⟩
  | false =>
      simp only [executeMeasurement, hm, Bool.false_eq_true, if_false] at h
      cases hl : loadOutletLocations toks with
      | nil => rw [hl] at h; exact absurd h (by simp)
      | cons o rest =>
          rw [hl] at h
          simp only [List.getElem?_cons_zero] at h
          cases hc : createAlgorithm i p with
          | none => rw [hc] at h; exact absurd h (by simp)
          | some a =>
              rw [hc] at h
              cases hs : executeSingle g o with
              | error e => rw [hs] at h; exact absurd h (by simp)
              | ok s =>
                  rw [hs] at h
                  simp only [RunOutcome.wroteCsv.injEq] at h
                  subst h
                  exact ⟨rfl, fun ht => absurd ht (by simp),
                    fun _ => ⟨o, s, by simp, hs, rfl⟩⟩

/-- Witness for `c6_csv_shape`: the multi-outlet run of algorithm 3 on the
two-outlet chain file writes the header and one line per outlet. -/
theorem c6_csv_shape_witness :
    (["row,column", "1,5", "1,5"] : List String).head? = some "row,column" ∧
    (multiMode 3 1 = true →
        ∃ sources, executeMultiple gChain (loadOutletLocations toksTwoOutlets) = .ok sources ∧
          sources.length = (loadOutletLocations toksTwoOutlets).length ∧
          ["row,column", "1,5", "1,5"] = csvOutput sources) ∧
    (multiMode 3 1 = false →
        ∃ o s, (loadOutletLocations toksTwoOutlets)[0]? = some o ∧
          executeSingle gChain o = .ok s ∧
          ["row,column", "1,5", "1,5"] = ["row,column", csvLine s]) :=
  c6_csv_shape gChain toksTwoOutlets 3 1 ["row,column", "1,5", "1,5"] (by decide)
